import Mathlib

/-!
Shallow embedding of `main.py` of the CodeRunnerFastAPI repository: a thin
FastAPI gateway that assembles prompts from request fields and forwards them
to the Gemini generative-language provider.

The provider call `model.generate_content(input_data)` is modelled as an
abstract function from the assembled segment list to either a response text
or an error.  Each endpoint handler is embedded as a function returning the
trace of provider calls it makes together with the final outcome, so that
call-count and error-propagation properties can be stated.
-/

/-- Error raised by the external Gemini provider (network failure, auth
failure, quota, ...).  Opaque to this service; the message field is the
exception payload. -/
structure GenaiError where
  message : String
deriving DecidableEq

/-- The external provider: takes the assembled segment list (the Python
`input_data` list passed to `model.generate_content`) and either returns
the response text or fails. -/
abbrev Provider : Type := List String → Except GenaiError String

/-- Request body of POST /analyze (Pydantic model `ApproachRequest`). -/
structure ApproachRequest where
  problem_statement : String
  code_input : String
deriving DecidableEq

/-- Request body of POST /solve_doubt (Pydantic model `DoubtRequest`). -/
structure DoubtRequest where
  doubt_question : String
  problem_context : String
deriving DecidableEq

/-- Request body of POST /edit (Pydantic model `GeneralCodingQuestion`). -/
structure GeneralCodingQuestion where
  question : String
deriving DecidableEq

/-- Request body of POST /givescore (Pydantic model `ScoreRequest`). -/
structure ScoreRequest where
  question : String
  answer : String
deriving DecidableEq

/-- JSON response body returned by a handler: `response t` stands for
`{"response": t}` (analyze, solve_doubt, edit) and `score t` stands for
`{"score": t}` (givescore). -/
inductive ResponseBody where
  | response (text : String)
  | score (text : String)
deriving DecidableEq

/-- Python truthiness of an optional string argument: `if user_question:`
is false exactly when the argument is `None` or the empty string. -/
def pyTruthy : Option String → Bool
  | none => false
  | some s => s != ""

/-- The `input_data` list built inside `get_gemini_response` (main.py lines
47 to 52): start from the empty list, append a labelled question segment if
`user_question` is truthy, append a labelled code segment if `code_snippet`
is truthy, then always append the prompt segment. -/
def gemini_input_data (prompt : String) (code_snippet : Option String)
    (user_question : Option String) : List String :=
  let input_data : List String := []
  let input_data := if pyTruthy user_question
    then input_data ++ ["Problem/Question: " ++ user_question.getD ""] else input_data
  let input_data := if pyTruthy code_snippet
    then input_data ++ ["User Code: " ++ code_snippet.getD ""] else input_data
  input_data ++ ["Prompt: " ++ prompt]

/-- Models `get_gemini_response` (main.py lines 42 to 56): builds
`input_data`, performs a single call to the provider with it, and returns
`response.text`.  The first component records the provider calls made
(each element is one call, carrying the segment list sent). -/
def get_gemini_response (generate_content : Provider) (prompt : String)
    (code_snippet : Option String) (user_question : Option String) :
    List (List String) × Except GenaiError String :=
  let input_data := gemini_input_data prompt code_snippet user_question
  ([input_data], generate_content input_data)

/-- The fixed instructional prompt of the /analyze endpoint
(main.py lines 64 to 70). -/
def prompt_approach : String :=
  "You are an expert coding mentor named Edith. The user has provided a coding problem and a code snippet. " ++
  "Analyze the code and provide a **concise and professional** response covering three key areas:\n\n" ++
  "1️⃣ **How the user can proceed next** based on the current implementation.\n" ++
  "2️⃣ **Identify errors (if any)**, mentioning **specific line numbers** and explaining incorrect logic.\n" ++
  "3️⃣ **Give the correct approach** (without providing direct code), focusing on best practices and improvements."

/-- The fixed instructional prompt of the /solve_doubt endpoint
(main.py lines 86 to 90). -/
def prompt_doubt : String :=
  "You are a knowledgeable technical mentor named Edith. " ++
  "Answer the user\u0027s question and clarify any doubts regarding the problem statement. " ++
  "Provide a **precise yet detailed explanation**, ensuring conceptual clarity."

/-- The fixed instructional prompt of the /edit endpoint (main.py lines 106
to 113, a Python triple-quoted literal with its embedded indentation). -/
def prompt_edit : String :=
  "You are Edith, an AI coding mentor who helps users **think** about problems instead of just providing answers. \n        For the given coding question, explain **how the user should approach it**, including:\n        1️⃣ **Breaking down the problem logically**  \n        2️⃣ **Identifying key concepts involved**  \n        3️⃣ **Steps to derive a solution independently**  \n        Encourage problem-solving without giving direct solutions."

/-- The /givescore prompt (main.py lines 128 to 134): fixed preamble, the
interpolated question and answer, and the numeric-score instruction. -/
def prompt_score (request : ScoreRequest) : String :=
  "You are an expert evaluator. Evaluate the following answer to the given question on a scale of 0 to 10, where 0 means completely incorrect and 10 means completely correct.\n\n" ++
  "Question: " ++ request.question ++ "\n" ++
  "Answer: " ++ request.answer ++ "\n\n" ++
  "Please respond only with the numeric score."

/-- Segment list assembled for an /analyze request: code snippet and
question both supplied (main.py lines 72 to 76). -/
def analyze_segments (request : ApproachRequest) : List String :=
  gemini_input_data prompt_approach (some request.code_input) (some request.problem_statement)

/-- The `combined_question` local of `solve_doubt` (main.py line 92). -/
def solve_doubt_combined_question (request : DoubtRequest) : String :=
  request.doubt_question ++ "\nContext: " ++ request.problem_context

/-- Segment list assembled for a /solve_doubt request: no code snippet,
the combined question as user question (main.py lines 93 to 96). -/
def solve_doubt_segments (request : DoubtRequest) : List String :=
  gemini_input_data prompt_doubt none (some (solve_doubt_combined_question request))

/-- Segment list assembled for an /edit request: no code snippet
(main.py lines 115 to 118). -/
def edit_segments (request : GeneralCodingQuestion) : List String :=
  gemini_input_data prompt_edit none (some request.question)

/-- Segment list assembled for a /givescore request: neither optional
argument is passed (main.py line 136). -/
def give_score_segments (request : ScoreRequest) : List String :=
  gemini_input_data (prompt_score request) none none

/-- Handler of POST /analyze (main.py lines 58 to 78): one call to
`get_gemini_response`, result wrapped as `{"response": ...}`. -/
def analyze_code (generate_content : Provider) (request : ApproachRequest) :
    List (List String) × Except GenaiError ResponseBody :=
  let result := get_gemini_response generate_content prompt_approach
    (some request.code_input) (some request.problem_statement)
  (result.1, result.2.map ResponseBody.response)

/-- Handler of POST /solve_doubt (main.py lines 80 to 98). -/
def solve_doubt (generate_content : Provider) (request : DoubtRequest) :
    List (List String) × Except GenaiError ResponseBody :=
  let result := get_gemini_response generate_content prompt_doubt
    none (some (solve_doubt_combined_question request))
  (result.1, result.2.map ResponseBody.response)

/-- Handler of POST /edit (main.py lines 100 to 120). -/
def edit_code_thinking (generate_content : Provider) (request : GeneralCodingQuestion) :
    List (List String) × Except GenaiError ResponseBody :=
  let result := get_gemini_response generate_content prompt_edit
    none (some request.question)
  (result.1, result.2.map ResponseBody.response)

/-- Handler of POST /givescore (main.py lines 122 to 137): result wrapped
as `{"score": ...}`. -/
def give_score (generate_content : Provider) (request : ScoreRequest) :
    List (List String) × Except GenaiError ResponseBody :=
  let result := get_gemini_response generate_content (prompt_score request) none none
  (result.1, result.2.map ResponseBody.score)

/-! Helper lemmas: the three segment labels are pairwise incompatible, so a
segment built with one label can never equal a segment built with another,
whatever the appended payloads are. -/

/-- A segment labelled `User Code: ` never equals one labelled
`Problem/Question: `. -/
lemma userCode_ne_problemQuestion (s t : String) :
    "User Code: " ++ s ≠ "Problem/Question: " ++ t := by
  intro h
  have hd := congrArg String.data h
  rw [String.data_append, String.data_append] at hd
  have h1 : "User Code: ".data = 'U' :: "ser Code: ".data := rfl
  have h2 : "Problem/Question: ".data = 'P' :: "roblem/Question: ".data := rfl
  rw [h1, h2] at hd
  simp at hd

/-- A segment labelled `User Code: ` never equals one labelled `Prompt: `. -/
lemma userCode_ne_prompt (s t : String) :
    "User Code: " ++ s ≠ "Prompt: " ++ t := by
  intro h
  have hd := congrArg String.data h
  rw [String.data_append, String.data_append] at hd
  have h1 : "User Code: ".data = 'U' :: "ser Code: ".data := rfl
  have h2 : "Prompt: ".data = 'P' :: "rompt: ".data := rfl
  rw [h1, h2] at hd
  simp at hd

/-- A segment labelled `Problem/Question: ` never equals one labelled
`Prompt: `. -/
lemma problemQuestion_ne_prompt (s t : String) :
    "Problem/Question: " ++ s ≠ "Prompt: " ++ t := by
  intro h
  have hd := congrArg String.data h
  rw [String.data_append, String.data_append] at hd
  have h1 : "Problem/Question: ".data = 'P' :: 'r' :: 'o' :: 'b' :: "lem/Question: ".data := rfl
  have h2 : "Prompt: ".data = 'P' :: 'r' :: 'o' :: 'm' :: "pt: ".data := rfl
  rw [h1, h2] at hd
  simp at hd

/-- The combined question of solve_doubt contains the literal
`\nContext: `, hence is never the empty string. -/
lemma combined_ne_empty (a b : String) : a ++ "\nContext: " ++ b ≠ "" := by
  intro h
  have hd := congrArg String.data h
  rw [String.data_append, String.data_append] at hd
  have h1 : "\nContext: ".data = '\n' :: "Context: ".data := rfl
  have h0 : "".data = ([] : List Char) := rfl
  rw [h1, h0] at hd
  simp at hd

/-- Membership characterization of the assembled segment list. -/
lemma mem_gemini_input_data (p : String) (c q : Option String) (x : String) :
    x ∈ gemini_input_data p c q ↔
      (pyTruthy q = true ∧ x = "Problem/Question: " ++ q.getD "") ∨
      (pyTruthy c = true ∧ x = "User Code: " ++ c.getD "") ∨
      x = "Prompt: " ++ p := by
  simp only [gemini_input_data]
  cases hq : pyTruthy q <;> cases hc : pyTruthy c <;> simp

/-- The empty string is falsy. -/
lemma pyTruthy_some_empty : pyTruthy (some "") = false := by decide

/-- A nonempty string is truthy. -/
lemma pyTruthy_some_of_ne (s : String) (h : s ≠ "") : pyTruthy (some s) = true := by
  simp [pyTruthy, bne_iff_ne, h]

/-- Mapping a wrapper over an Except preserves success and failure shape. -/
lemma except_map_ok_iff {ε α β : Type} (f : α → β) (x : Except ε α) :
    (∃ b, x.map f = Except.ok b) ↔ (∃ t, x = Except.ok t) := by
  cases x <;> simp [Except.map]

/-- Claim C1: for every /analyze request in which both context fields are
supplied (nonempty, hence truthy under the presence test of
get_gemini_response), the assembled segment list is exactly the question
segment, then the code segment, then the fixed instructional segment last. -/
theorem analyze_prompt_question_code_instruction_order (r : ApproachRequest)
    (hq : r.problem_statement ≠ "") (hc : r.code_input ≠ "") :
    analyze_segments r =
      ["Problem/Question: " ++ r.problem_statement,
       "User Code: " ++ r.code_input,
       "Prompt: " ++ prompt_approach] := by
  have hq' := pyTruthy_some_of_ne _ hq
  have hc' := pyTruthy_some_of_ne _ hc
  simp [analyze_segments, gemini_input_data, hq', hc']

/-- Witness for C1 at a concrete /analyze request. -/
theorem analyze_prompt_question_code_instruction_order_witness :
    analyze_segments ⟨"Reverse a linked list", "def rev(h): pass"⟩ =
      ["Problem/Question: " ++ "Reverse a linked list",
       "User Code: " ++ "def rev(h): pass",
       "Prompt: " ++ prompt_approach] :=
  analyze_prompt_question_code_instruction_order
    ⟨"Reverse a linked list", "def rev(h): pass"⟩ (by decide) (by decide)

/-- Claim C2: the three endpoints that pass no code snippet (solve_doubt,
edit, give_score) never put a `User Code: `-labelled segment into the
assembled prompt, for all input strings. -/
theorem no_user_code_segment_without_code_field
    (dr : DoubtRequest) (gq : GeneralCodingQuestion) (sr : ScoreRequest) (s : String) :
    ("User Code: " ++ s) ∉ solve_doubt_segments dr ∧
    ("User Code: " ++ s) ∉ edit_segments gq ∧
    ("User Code: " ++ s) ∉ give_score_segments sr := by
  refine ⟨?_, ?_, ?_⟩ <;> intro hmem
  · simp only [solve_doubt_segments, mem_gemini_input_data] at hmem
    rcases hmem with ⟨-, h⟩ | ⟨hc, -⟩ | h
    · exact userCode_ne_problemQuestion _ _ h
    · exact Bool.false_ne_true hc
    · exact userCode_ne_prompt _ _ h
  · simp only [edit_segments, mem_gemini_input_data] at hmem
    rcases hmem with ⟨-, h⟩ | ⟨hc, -⟩ | h
    · exact userCode_ne_problemQuestion _ _ h
    · exact Bool.false_ne_true hc
    · exact userCode_ne_prompt _ _ h
  · simp only [give_score_segments, mem_gemini_input_data] at hmem
    rcases hmem with ⟨hq, -⟩ | ⟨hc, -⟩ | h
    · exact Bool.false_ne_true hq
    · exact Bool.false_ne_true hc
    · exact userCode_ne_prompt _ _ h

/-- Claim C3: the combined question passed into prompt assembly by
solve_doubt equals `doubt_question ++ "\nContext: " ++ problem_context`,
and (being nonempty) it appears as the question segment of the assembled
prompt, before the fixed instructional segment. -/
theorem solve_doubt_combined_question_spec (r : DoubtRequest) :
    solve_doubt_combined_question r =
      r.doubt_question ++ "\nContext: " ++ r.problem_context ∧
    solve_doubt_segments r =
      ["Problem/Question: " ++ (r.doubt_question ++ "\nContext: " ++ r.problem_context),
       "Prompt: " ++ prompt_doubt] := by
  refine ⟨rfl, ?_⟩
  simp [solve_doubt_segments, gemini_input_data, solve_doubt_combined_question,
    pyTruthy, bne_iff_ne, combined_ne_empty]

/-- Claim C4: the /givescore prompt embeds the request question and answer
verbatim as substrings and contains the instruction to respond only with
the numeric score; the assembled prompt is the single segment
`Prompt: ` ++ prompt_score. -/
theorem give_score_prompt_embeds_question_answer_verbatim (r : ScoreRequest) :
    give_score_segments r = ["Prompt: " ++ prompt_score r] ∧
    (∃ u v, "Prompt: " ++ prompt_score r = u ++ r.question ++ v) ∧
    (∃ u v, "Prompt: " ++ prompt_score r = u ++ r.answer ++ v) ∧
    (∃ u v, "Prompt: " ++ prompt_score r =
      u ++ "Please respond only with the numeric score." ++ v) := by
  refine ⟨rfl, ?_, ?_, ?_⟩
  · refine ⟨"Prompt: " ++ "You are an expert evaluator. Evaluate the following answer to the given question on a scale of 0 to 10, where 0 means completely incorrect and 10 means completely correct.\n\n" ++ "Question: ",
      "\n" ++ "Answer: " ++ r.answer ++ "\n\n" ++ "Please respond only with the numeric score.", ?_⟩
    simp only [prompt_score, String.append_assoc]
  · refine ⟨"Prompt: " ++ "You are an expert evaluator. Evaluate the following answer to the given question on a scale of 0 to 10, where 0 means completely incorrect and 10 means completely correct.\n\n" ++ "Question: " ++ r.question ++ "\n" ++ "Answer: ",
      "\n\n" ++ "Please respond only with the numeric score.", ?_⟩
    simp only [prompt_score, String.append_assoc]
  · refine ⟨"Prompt: " ++ "You are an expert evaluator. Evaluate the following answer to the given question on a scale of 0 to 10, where 0 means completely incorrect and 10 means completely correct.\n\n" ++ "Question: " ++ r.question ++ "\n" ++ "Answer: " ++ r.answer ++ "\n\n",
      "", ?_⟩
    simp only [prompt_score, String.append_empty, String.append_assoc]

/-- Counterexample to claim C5 as stated: with both optional arguments
supplied but empty, the assembled segment list is just the fixed
instructional segment; neither the question segment (which would be the
string `Problem/Question: `) nor the code segment (`User Code: `) occurs,
so presence of a supplied-but-empty string does not produce its labelled
segment. -/
theorem prompt_assembly_empty_counterexample :
    gemini_input_data "p" (some "") (some "") = ["Prompt: p"] ∧
    "Problem/Question: " ∉ gemini_input_data "p" (some "") (some "") ∧
    "User Code: " ∉ gemini_input_data "p" (some "") (some "") := by
  decide

/-- Claim C5 (amended): prompt assembly is uniform across the four
operations, with segment inclusion decided by Python truthiness: the
question segment is prepended exactly when the question string is supplied
and nonempty, the code segment is appended exactly when the code string is
supplied and nonempty, and the fixed instructional segment is always the
final segment; a supplied empty string is treated as absent. -/
theorem prompt_assembly_truthy_uniform (p : String) (c q : Option String) :
    gemini_input_data p c q =
      (if pyTruthy q then ["Problem/Question: " ++ q.getD ""] else []) ++
      (if pyTruthy c then ["User Code: " ++ c.getD ""] else []) ++
      ["Prompt: " ++ p] ∧
    (gemini_input_data p c q).getLast? = some ("Prompt: " ++ p) := by
  constructor
  · simp only [gemini_input_data]
    cases pyTruthy q <;> cases pyTruthy c <;> simp
  · simp only [gemini_input_data]
    exact List.getLast?_concat _

/-- Claim C6: every request to any of the four endpoints assembles exactly
one prompt and performs exactly one provider call (the trace is a
singleton), and the single response is exactly the outcome of that one
call — no retry, no caching, no partial result. -/
theorem one_prompt_one_call_per_request (gen : Provider)
    (ar : ApproachRequest) (dr : DoubtRequest) (gq : GeneralCodingQuestion)
    (sr : ScoreRequest) :
    (analyze_code gen ar).1 = [analyze_segments ar] ∧
    (solve_doubt gen dr).1 = [solve_doubt_segments dr] ∧
    (edit_code_thinking gen gq).1 = [edit_segments gq] ∧
    (give_score gen sr).1 = [give_score_segments sr] ∧
    (analyze_code gen ar).2 = (gen (analyze_segments ar)).map ResponseBody.response ∧
    (solve_doubt gen dr).2 = (gen (solve_doubt_segments dr)).map ResponseBody.response ∧
    (edit_code_thinking gen gq).2 = (gen (edit_segments gq)).map ResponseBody.response ∧
    (give_score gen sr).2 = (gen (give_score_segments sr)).map ResponseBody.score :=
  ⟨rfl, rfl, rfl, rfl, rfl, rfl, rfl, rfl⟩

/-- Claim C7: for every endpoint, a provider failure propagates out of the
handler unchanged — the outcome is exactly the provider error, with no
retry and no fallback — and the handler produces a successful result if
and only if the single provider call succeeds. -/
theorem provider_failure_propagates (gen : Provider) (ar : ApproachRequest)
    (dr : DoubtRequest) (gq : GeneralCodingQuestion) (sr : ScoreRequest)
    (e : GenaiError) :
    (gen (analyze_segments ar) = Except.error e →
      (analyze_code gen ar).2 = Except.error e) ∧
    (gen (solve_doubt_segments dr) = Except.error e →
      (solve_doubt gen dr).2 = Except.error e) ∧
    (gen (edit_segments gq) = Except.error e →
      (edit_code_thinking gen gq).2 = Except.error e) ∧
    (gen (give_score_segments sr) = Except.error e →
      (give_score gen sr).2 = Except.error e) ∧
    ((∃ b, (analyze_code gen ar).2 = Except.ok b) ↔
      (∃ t, gen (analyze_segments ar) = Except.ok t)) ∧
    ((∃ b, (solve_doubt gen dr).2 = Except.ok b) ↔
      (∃ t, gen (solve_doubt_segments dr) = Except.ok t)) ∧
    ((∃ b, (edit_code_thinking gen gq).2 = Except.ok b) ↔
      (∃ t, gen (edit_segments gq) = Except.ok t)) ∧
    ((∃ b, (give_score gen sr).2 = Except.ok b) ↔
      (∃ t, gen (give_score_segments sr) = Except.ok t)) := by
  refine ⟨?_, ?_, ?_, ?_, ?_, ?_, ?_, ?_⟩
  · intro h
    show (gen (analyze_segments ar)).map ResponseBody.response = Except.error e
    rw [h]
    rfl
  · intro h
    show (gen (solve_doubt_segments dr)).map ResponseBody.response = Except.error e
    rw [h]
    rfl
  · intro h
    show (gen (edit_segments gq)).map ResponseBody.response = Except.error e
    rw [h]
    rfl
  · intro h
    show (gen (give_score_segments sr)).map ResponseBody.score = Except.error e
    rw [h]
    rfl
  · exact except_map_ok_iff ResponseBody.response (gen (analyze_segments ar))
  · exact except_map_ok_iff ResponseBody.response (gen (solve_doubt_segments dr))
  · exact except_map_ok_iff ResponseBody.response (gen (edit_segments gq))
  · exact except_map_ok_iff ResponseBody.score (gen (give_score_segments sr))

/-- Witness for C7: under a provider that always fails with a network
error, /analyze and /givescore surface exactly that error. -/
theorem provider_failure_propagates_witness :
    (analyze_code (fun _ => Except.error ⟨"network error"⟩) ⟨"q", "c"⟩).2 =
      Except.error ⟨"network error"⟩ ∧
    (give_score (fun _ => Except.error ⟨"network error"⟩) ⟨"2+2=?", "4"⟩).2 =
      Except.error ⟨"network error"⟩ :=
  ⟨(provider_failure_propagates (fun _ => Except.error ⟨"network error"⟩)
      ⟨"q", "c"⟩ ⟨"d", "p"⟩ ⟨"g"⟩ ⟨"2+2=?", "4"⟩ ⟨"network error"⟩).1 rfl,
   (provider_failure_propagates (fun _ => Except.error ⟨"network error"⟩)
      ⟨"q", "c"⟩ ⟨"d", "p"⟩ ⟨"g"⟩ ⟨"2+2=?", "4"⟩ ⟨"network error"⟩).2.2.2.1 rfl⟩

/-- Claim C8: on success the provider text is passed through unmodified:
analyze, solve_doubt and edit return `{"response": t}` and givescore
returns `{"score": t}`, where t is exactly the provider text. -/
theorem response_text_passthrough (gen : Provider) (t : String)
    (ar : ApproachRequest) (dr : DoubtRequest) (gq : GeneralCodingQuestion)
    (sr : ScoreRequest) :
    (gen (analyze_segments ar) = Except.ok t →
      (analyze_code gen ar).2 = Except.ok (ResponseBody.response t)) ∧
    (gen (solve_doubt_segments dr) = Except.ok t →
      (solve_doubt gen dr).2 = Except.ok (ResponseBody.response t)) ∧
    (gen (edit_segments gq) = Except.ok t →
      (edit_code_thinking gen gq).2 = Except.ok (ResponseBody.response t)) ∧
    (gen (give_score_segments sr) = Except.ok t →
      (give_score gen sr).2 = Except.ok (ResponseBody.score t)) := by
  refine ⟨?_, ?_, ?_, ?_⟩
  · intro h
    show (gen (analyze_segments ar)).map ResponseBody.response = Except.ok (ResponseBody.response t)
    rw [h]
    rfl
  · intro h
    show (gen (solve_doubt_segments dr)).map ResponseBody.response = Except.ok (ResponseBody.response t)
    rw [h]
    rfl
  · intro h
    show (gen (edit_segments gq)).map ResponseBody.response = Except.ok (ResponseBody.response t)
    rw [h]
    rfl
  · intro h
    show (gen (give_score_segments sr)).map ResponseBody.score = Except.ok (ResponseBody.score t)
    rw [h]
    rfl

/-- Witness for C8: under a provider that always answers with a fixed
text, /analyze wraps it as a response body and /givescore as a score. -/
theorem response_text_passthrough_witness :
    (analyze_code (fun _ => Except.ok "looks good") ⟨"q", "c"⟩).2 =
      Except.ok (ResponseBody.response "looks good") ∧
    (give_score (fun _ => Except.ok "7") ⟨"2+2=?", "4"⟩).2 =
      Except.ok (ResponseBody.score "7") :=
  ⟨(response_text_passthrough (fun _ => Except.ok "looks good") "looks good"
      ⟨"q", "c"⟩ ⟨"d", "p"⟩ ⟨"g"⟩ ⟨"2+2=?", "4"⟩).1 rfl,
   (response_text_passthrough (fun _ => Except.ok "7") "7"
      ⟨"q", "c"⟩ ⟨"d", "p"⟩ ⟨"g"⟩ ⟨"2+2=?", "4"⟩).2.2.2 rfl⟩

/-- Claim C9: supplying the empty string for an optional context argument
behaves exactly like not supplying it — the labelled segment is silently
omitted, because inclusion tests string truthiness rather than presence —
and in particular no `User Code: ` (resp. `Problem/Question: `) segment
appears when the code (resp. question) string is empty. -/
theorem empty_string_field_omits_segment (p c q : String) :
    gemini_input_data p (some "") (some q) = gemini_input_data p none (some q) ∧
    gemini_input_data p (some c) (some "") = gemini_input_data p (some c) none ∧
    (∀ s, ("User Code: " ++ s) ∉ gemini_input_data p (some "") (some q)) ∧
    (∀ s, ("Problem/Question: " ++ s) ∉ gemini_input_data p (some c) (some "")) := by
  refine ⟨?_, ?_, ?_, ?_⟩
  · simp [gemini_input_data, pyTruthy]
  · simp [gemini_input_data, pyTruthy]
  · intro s hmem
    simp only [mem_gemini_input_data] at hmem
    rcases hmem with ⟨-, h⟩ | ⟨hc, -⟩ | h
    · exact userCode_ne_problemQuestion _ _ h
    · rw [pyTruthy_some_empty] at hc
      exact Bool.false_ne_true hc
    · exact userCode_ne_prompt _ _ h
  · intro s hmem
    simp only [mem_gemini_input_data] at hmem
    rcases hmem with ⟨hq, -⟩ | ⟨-, h⟩ | h
    · rw [pyTruthy_some_empty] at hq
      exact Bool.false_ne_true hq
    · exact userCode_ne_problemQuestion _ _ h.symm
    · exact problemQuestion_ne_prompt _ _ h

/-- Claim C10: the segment list of a /givescore request is exactly the one
`Prompt: `-prefixed instruction segment with the interpolated question and
answer, and never contains a `Problem/Question: ` segment even though the
request carries a question field. -/
theorem give_score_single_prompt_segment (r : ScoreRequest) :
    give_score_segments r = ["Prompt: " ++ prompt_score r] ∧
    ∀ s, ("Problem/Question: " ++ s) ∉ give_score_segments r := by
  refine ⟨rfl, ?_⟩
  intro s hmem
  simp only [give_score_segments, mem_gemini_input_data] at hmem
  rcases hmem with ⟨hq, -⟩ | ⟨hc, -⟩ | h
  · exact Bool.false_ne_true hq
  · exact Bool.false_ne_true hc
  · exact problemQuestion_ne_prompt _ _ h
